import Mathlib

/-!
Verification of the POV-Ray scene-export / asset-deduplication pipeline
(`src/chrono_postprocess/ChPovRay.h`).

The repository excerpt ships only the class declaration (with its inline
setters and documentation comments); the bodies of `Add`, `Remove`, `AddAll`,
`RemoveAll`, `ExportScript`, `ExportData`, `ExportAssets` and the contact
overlay emission live in a translation unit that is not part of the excerpt.
Those operations are therefore modelled from the specification, as marked on
each definition; the inline setters are translated directly from the header.

Reals (`double` in the source) are modelled as `ℚ`: every property below is
about exact order/equality structure (monotonicity, clamping, invariance),
not about rounding.
-/

set_option linter.unusedVariables false

namespace PovExport

/-- A 3-component vector (`ChVector<>` / `ChColor` in the source), modelled
over `ℚ`. -/
abbrev Vec3 := ℚ × ℚ × ℚ

/-- A visual material (`ChVisualMaterial`). Only its stable identity key is
relevant to the claims: the source deduplicates materials through
`m_pov_materials`, an `unordered_map<size_t, shared_ptr<ChVisualMaterial>>`
keyed by an identity hash. -/
structure ChVisualMaterial where
  key : Nat
deriving DecidableEq, Repr

/-- A visual shape (`ChVisualShape`): identity key, the identity keys of its
associated materials, and the wireframe flag. -/
structure ChVisualShape where
  key : Nat
  materials : List Nat
  wireframe : Bool
deriving DecidableEq, Repr

/-- One shape instance of a visual model (`ChVisualModel::ShapeInstance`):
a shape together with its local transform (position part modelled). -/
structure ShapeInstance where
  shape : ChVisualShape
  frame : Vec3
deriving DecidableEq, Repr

/-- A visual model (`ChVisualModel`): the shape instances it aggregates. -/
structure ChVisualModel where
  shapes : List ShapeInstance
deriving DecidableEq, Repr

/-- A physics item (`ChPhysicsItem`): stable identity, an optional visual
model (the `GetVisualModel()` query: `none` means the item exposes no visual
representation), and its current world position. -/
structure ChPhysicsItem where
  id : Nat
  visual : Option ChVisualModel
  pos : Vec3
deriving DecidableEq, Repr

/-- Shape identity keys referenced by one item (empty when it has no visual
model). -/
def ChPhysicsItem.shapeKeys (it : ChPhysicsItem) : List Nat :=
  match it.visual with
  | none => []
  | some vm => vm.shapes.map (fun si => si.shape.key)

/-- Material identity keys referenced by one item. -/
def ChPhysicsItem.matKeys (it : ChPhysicsItem) : List Nat :=
  match it.visual with
  | none => []
  | some vm => vm.shapes.flatMap (fun si => si.shape.materials)

/-- Modes for displaying contacts (`ChPovRay::ContactSymbol`). -/
inductive ContactSymbol where
  | VECTOR_SCALELENGTH
  | VECTOR_SCALERADIUS
  | VECTOR_NOSCALE
  | SPHERE_SCALERADIUS
  | SPHERE_NOSCALE
deriving DecidableEq, Repr

/-- The exporter state: the private members of class `ChPovRay`
(`ChPovRay.h`, lines 214-269). `m_items` is the render list
(`unordered_set<shared_ptr<ChPhysicsItem>>`, keyed by item identity);
`m_pov_shapes` / `m_pov_materials` are the dedup caches
(`unordered_map<size_t, ...>`, modelled by their key lists);
`assets_shapes_out` / `assets_mats_out` model the accumulated contents of the
single combined asset file (the serialized definitions, in write order). -/
structure ChPovRay where
  m_items : List ChPhysicsItem
  m_pov_shapes : List Nat
  m_pov_materials : List Nat
  assets_shapes_out : List Nat
  assets_mats_out : List Nat
  base_path : String
  template_filename : String
  pic_filename : String
  out_script_filename : String
  out_data_filename : String
  framenumber : Nat
  camera_location : Vec3
  camera_aim : Vec3
  camera_angle : ℚ
  camera_orthographic : Bool
  def_light_location : Vec3
  def_light_color : Vec3
  def_light_cast_shadows : Bool
  COGs_show : Bool
  COGs_size : ℚ
  frames_show : Bool
  frames_size : ℚ
  links_show : Bool
  links_size : ℚ
  contacts_show : Bool
  contacts_maxsize : ℚ
  contacts_scale : ℚ
  contacts_scale_mode : ContactSymbol
  contacts_width : ℚ
  contacts_colormap_startscale : ℚ
  contacts_colormap_endscale : ℚ
  contacts_do_colormap : Bool
  wireframe_thickness : ℚ
  background : Vec3
  ambient_light : Vec3
  antialias : Bool
  antialias_depth : Nat
  antialias_treshold : ℚ
  picture_width : Nat
  picture_height : Nat
  custom_script : String
  custom_data : String
  single_asset_file : Bool
deriving DecidableEq, Repr

/-- Inline setter `SetBasePath` (`ChPovRay.h` line 75). -/
def ChPovRay.SetBasePath (s : ChPovRay) (mpath : String) : ChPovRay :=
  { s with base_path := mpath }

/-- Inline setter `SetTemplateFile` (line 79). -/
def ChPovRay.SetTemplateFile (s : ChPovRay) (filename : String) : ChPovRay :=
  { s with template_filename := filename }

/-- Inline setter `SetOutputScriptFile` (line 83). -/
def ChPovRay.SetOutputScriptFile (s : ChPovRay) (filename : String) : ChPovRay :=
  { s with out_script_filename := filename }

/-- Inline setter `SetPictureFilebase` (line 88). -/
def ChPovRay.SetPictureFilebase (s : ChPovRay) (filename : String) : ChPovRay :=
  { s with pic_filename := filename }

/-- Inline setter `SetOutputDataFilebase` (line 97). -/
def ChPovRay.SetOutputDataFilebase (s : ChPovRay) (filename : String) : ChPovRay :=
  { s with out_data_filename := filename }

/-- Inline setter `SetPictureSize` (lines 100-103). -/
def ChPovRay.SetPictureSize (s : ChPovRay) (width height : Nat) : ChPovRay :=
  { s with picture_width := width, picture_height := height }

/-- Inline setter `SetAntialiasing` (lines 106-110). -/
def ChPovRay.SetAntialiasing (s : ChPovRay) (active : Bool) (depth : Nat) (treshold : ℚ) :
    ChPovRay :=
  { s with antialias := active, antialias_depth := depth, antialias_treshold := treshold }

/-- Inline setter `SetBackground` (line 119). -/
def ChPovRay.SetBackground (s : ChPovRay) (color : Vec3) : ChPovRay :=
  { s with background := color }

/-- Inline setter `SetAmbientLight` (line 122). -/
def ChPovRay.SetAmbientLight (s : ChPovRay) (color : Vec3) : ChPovRay :=
  { s with ambient_light := color }

/-- Inline setter `SetWireframeThickness` (line 154). -/
def ChPovRay.SetWireframeThickness (s : ChPovRay) (mt : ℚ) : ChPovRay :=
  { s with wireframe_thickness := mt }

/-- Inline setter `SetCustomPOVcommandsScript` (line 161). -/
def ChPovRay.SetCustomPOVcommandsScript (s : ChPovRay) (mtext : String) : ChPovRay :=
  { s with custom_script := mtext }

/-- Inline setter `SetCustomPOVcommandsData` (line 167). -/
def ChPovRay.SetCustomPOVcommandsData (s : ChPovRay) (mtext : String) : ChPovRay :=
  { s with custom_data := mtext }

/-- Inline setter `SetFramenumber` (line 173): overrides the frame counter
used by the next default `ExportData()`. -/
def ChPovRay.SetFramenumber (s : ChPovRay) (mn : Nat) : ChPovRay :=
  { s with framenumber := mn }

/-- Inline setter `SetUseSingleAssetFile` (line 202). -/
def ChPovRay.SetUseSingleAssetFile (s : ChPovRay) (muse : Bool) : ChPovRay :=
  { s with single_asset_file := muse }

/-- Modelled from the spec (§4.5, missing `ChPovRay::SetShowCOGs`): persists
the toggle and symbol size, with no validation or clamping. -/
def ChPovRay.SetShowCOGs (s : ChPovRay) (sw : Bool) (msize : ℚ) : ChPovRay :=
  { s with COGs_show := sw, COGs_size := msize }

/-- Modelled from the spec (§4.5, missing `ChPovRay::SetShowFrames`). -/
def ChPovRay.SetShowFrames (s : ChPovRay) (sw : Bool) (msize : ℚ) : ChPovRay :=
  { s with frames_show := sw, frames_size := msize }

/-- Modelled from the spec (§4.5, missing `ChPovRay::SetShowLinks`). -/
def ChPovRay.SetShowLinks (s : ChPovRay) (sw : Bool) (msize : ℚ) : ChPovRay :=
  { s with links_show := sw, links_size := msize }

/-- Modelled from the spec (§4.5, missing `ChPovRay::SetShowContacts`):
persists mode, scale, width, max size and colormap flag/bounds exactly as
given (validation is documented as the caller's responsibility). -/
def ChPovRay.SetShowContacts (s : ChPovRay) (sw : Bool) (mode : ContactSymbol)
    (scale width max_size : ℚ) (do_colormap : Bool) (colormap_start colormap_end : ℚ) :
    ChPovRay :=
  { s with contacts_show := sw, contacts_scale_mode := mode, contacts_scale := scale,
           contacts_width := width, contacts_maxsize := max_size,
           contacts_do_colormap := do_colormap,
           contacts_colormap_startscale := colormap_start,
           contacts_colormap_endscale := colormap_end }

/-- Whether the render list already holds an item with the given identity. -/
def hasId (l : List ChPhysicsItem) (i : Nat) : Bool :=
  l.any (fun it => it.id == i)

/-- Modelled from the spec (§4.1, missing `ChPovRay::Add`): the item is added
to the render list only if it has a visual model (`ChPovRay.h` lines 47-49);
the list is a set keyed by item identity, so an item already present is not
inserted again. Adding an item without a visual model is a silent no-op. -/
def ChPovRay.Add (s : ChPovRay) (item : ChPhysicsItem) : ChPovRay :=
  match item.visual with
  | none => s
  | some _ =>
    if hasId s.m_items item.id then s
    else { s with m_items := s.m_items ++ [item] }

/-- Modelled from the spec (§4.1, missing `ChPovRay::Remove`): deletes the
item with the given identity from the render list if present; removing an
absent item is a no-op. -/
def ChPovRay.Remove (s : ChPovRay) (item : ChPhysicsItem) : ChPovRay :=
  { s with m_items := s.m_items.filter (fun it => !(it.id == item.id)) }

/-- Modelled from the spec (§4.1, missing `ChPovRay::AddAll`): adds every
item of the system's object collection through `Add` (so ineligible items
are skipped and items already present are not duplicated). -/
def ChPovRay.AddAll (s : ChPovRay) (sys : List ChPhysicsItem) : ChPovRay :=
  sys.foldl ChPovRay.Add s

/-- Modelled from the spec (§4.1, missing `ChPovRay::RemoveAll`): clears the
render list unconditionally. -/
def ChPovRay.RemoveAll (s : ChPovRay) : ChPovRay :=
  { s with m_items := [] }

/-- One step of the content-addressed cache (`AssetStore.Resolve`, spec §4.2;
the missing `ChPovRay::ExportAssets` body): if the identity key is already
registered in the cache it is skipped, otherwise its definition is appended
to the serialized output and the key is registered. -/
def resolveKey (cache out : List Nat) (k : Nat) : List Nat × List Nat :=
  if k ∈ cache then (cache, out) else (cache ++ [k], out ++ [k])

/-- Modelled from the spec (§4.2, missing `ChPovRay::ExportAssets` /
`ExportShapes` / `ExportMaterials`): resolve a list of identity keys through
the cache in order, serializing each first-seen key once. -/
def resolveKeys (cache out : List Nat) : List Nat → List Nat × List Nat
  | [] => (cache, out)
  | k :: ks => resolveKeys (resolveKey cache out k).1 (resolveKey cache out k).2 ks

/-- Shape identity keys referenced by the items currently in the render
list. -/
def renderShapeKeys (s : ChPovRay) : List Nat :=
  s.m_items.flatMap ChPhysicsItem.shapeKeys

/-- Material identity keys referenced by the items currently in the render
list. -/
def renderMatKeys (s : ChPovRay) : List Nat :=
  s.m_items.flatMap ChPhysicsItem.matKeys

/-- Modelled from the spec (§4.2 / §4.4 step 2, missing
`ChPovRay::ExportAssets`): resolve every shape and material referenced by the
render list through the dedup caches, appending first-seen definitions to the
combined asset output. -/
def exportAssetsStep (s : ChPovRay) : ChPovRay :=
  { s with
    m_pov_shapes := (resolveKeys s.m_pov_shapes s.assets_shapes_out (renderShapeKeys s)).1,
    assets_shapes_out := (resolveKeys s.m_pov_shapes s.assets_shapes_out (renderShapeKeys s)).2,
    m_pov_materials := (resolveKeys s.m_pov_materials s.assets_mats_out (renderMatKeys s)).1,
    assets_mats_out := (resolveKeys s.m_pov_materials s.assets_mats_out (renderMatKeys s)).2 }

/-- Zero-pad a frame number to width 4, as in the generated file names
`state0000.dat`, `state0001.dat`, ... (`ChPovRay.h` lines 64-74, 90-97). -/
def padZero4 (n : Nat) : String :=
  String.mk (List.replicate (4 - (toString n).length) '0') ++ toString n

/-- Clamp `x` into the interval `[lo, hi]`. -/
def clampQ (lo hi x : ℚ) : ℚ := max lo (min x hi)

/-- Modelled from the spec (§4.4 step 4): the colormap maps a contact-force
magnitude, clamped to the configured `[lo, hi]` bounds, affinely onto the
normalized color coordinate `[0, 1]` (0 = start color, 1 = end color). -/
def contactColorValue (lo hi fmag : ℚ) : ℚ :=
  (clampQ lo hi fmag - lo) / (hi - lo)

/-- Modelled from the spec and the `SetShowContacts` documentation
(`ChPovRay.h` lines 136-141, missing emission code): length of the emitted
contact symbol. Arrow length scales with force and is clamped by `max_size`
in `VECTOR_SCALELENGTH` mode; in `VECTOR_SCALERADIUS` mode the length of the
vector is always `max_size`; the unscaled vector has a force-independent
length (the exact constant is not pinned by the documentation; `max_size` is
used); sphere modes emit no vector. -/
def contactLength (s : ChPovRay) (fmag : ℚ) : ℚ :=
  match s.contacts_scale_mode with
  | .VECTOR_SCALELENGTH => min (s.contacts_scale * fmag) s.contacts_maxsize
  | .VECTOR_SCALERADIUS => s.contacts_maxsize
  | .VECTOR_NOSCALE => s.contacts_maxsize
  | .SPHERE_SCALERADIUS => 0
  | .SPHERE_NOSCALE => 0

/-- Modelled from the spec and the `SetShowContacts` documentation: radius of
the emitted contact symbol. In the scaled-radius modes the radius scales with
force (clamped by `max_size`); arrows otherwise use the configured `width`;
the unscaled sphere has a force-independent radius. -/
def contactRadius (s : ChPovRay) (fmag : ℚ) : ℚ :=
  match s.contacts_scale_mode with
  | .VECTOR_SCALELENGTH => s.contacts_width
  | .VECTOR_SCALERADIUS => min (s.contacts_scale * fmag) s.contacts_maxsize
  | .VECTOR_NOSCALE => s.contacts_width
  | .SPHERE_SCALERADIUS => min (s.contacts_scale * fmag) s.contacts_maxsize
  | .SPHERE_NOSCALE => s.contacts_maxsize

/-- One contact entry of a frame record: the force magnitude it was built
from, the normalized colormap value it carries, and its symbol geometry. -/
structure ContactEntry where
  fmag : ℚ
  colorval : ℚ
  length : ℚ
  radius : ℚ
deriving DecidableEq, Repr

/-- Modelled from the spec (§4.4 step 4, missing emission code): build the
contact entry for one contact-force magnitude from the current
visualization configuration. -/
def mkContactEntry (s : ChPovRay) (fmag : ℚ) : ContactEntry :=
  { fmag := fmag
    colorval :=
      if s.contacts_do_colormap then
        contactColorValue s.contacts_colormap_startscale s.contacts_colormap_endscale fmag
      else 0
    length := contactLength s fmag
    radius := contactRadius s fmag }

/-- A per-frame data file (`state0000.dat`, ...): its name components, the
asset definitions embedded in it (empty in single-asset-file mode, where
definitions go to the combined asset file instead), the serialized world
transforms, and the contact overlay entries. -/
structure FrameFile where
  name : String
  framestr : String
  embedded_shape_defs : List Nat
  embedded_mat_defs : List Nat
  transforms : List (Nat × Vec3)
  contact_entries : List ContactEntry
deriving DecidableEq, Repr

/-- Output directory for frame data files: the `output` subdirectory of the
configured base path (`ChPovRay.h` lines 64-74). -/
def outDir (s : ChPovRay) : String := s.base_path ++ "/output"

/-- Modelled from the spec (§4.4 steps 3-5, missing `ChPovRay::ExportData`
body): the frame file written by one export from state `s`, given the
contact-force magnitudes currently present in the system. In per-frame
embedding mode the referenced asset definitions are re-resolved against an
empty cache and embedded in the file itself. -/
def frameFileOf (s : ChPovRay) (contacts : List ℚ) : FrameFile :=
  { name := outDir s ++ "/" ++ s.out_data_filename ++ padZero4 s.framenumber ++ ".dat"
    framestr := padZero4 s.framenumber
    embedded_shape_defs :=
      if s.single_asset_file then [] else (resolveKeys [] [] (renderShapeKeys s)).2
    embedded_mat_defs :=
      if s.single_asset_file then [] else (resolveKeys [] [] (renderMatKeys s)).2
    transforms := s.m_items.map (fun it => (it.id, it.pos))
    contact_entries :=
      if s.contacts_show then contacts.map (mkContactEntry s) else [] }

/-- Modelled from the spec (§4.4, missing `ChPovRay::ExportData` body): one
successful frame export. Resolves render-list assets through the session
caches (single-asset-file mode only), produces the frame file for the current
frame number, and increments the internal frame counter by one. -/
def ChPovRay.ExportData (s : ChPovRay) (contacts : List ℚ) : ChPovRay × FrameFile :=
  let s1 := if s.single_asset_file then exportAssetsStep s else s
  ({ s1 with framenumber := s1.framenumber + 1 }, frameFileOf s contacts)

/-- Iterate `n` successful frame exports, the `i`-th one seeing the
contact-force magnitudes `cs i`, collecting the written frame files. -/
def exportN (cs : Nat → List ℚ) : Nat → ChPovRay → ChPovRay × List FrameFile
  | 0, s => (s, [])
  | n + 1, s =>
    let p := ChPovRay.ExportData s (cs 0)
    let q := exportN (fun i => cs (i + 1)) n p.1
    (q.1, p.2 :: q.2)

/-- A token of the script template: literal text, or a named marker to be
substituted (design note §9: template substitution as a declarative
marker-to-value table plus a single substitution pass). -/
inductive TemplToken where
  | lit (s : String)
  | marker (name : String)
deriving DecidableEq, Repr

/-- Modelled from the spec (§4.3, missing `ChPovRay::ExportScript` body): the
marker-to-value substitution table built from the current configuration
(picture size, antialiasing triple, camera, light, background/ambient colors,
wireframe thickness, custom command block, data file base). -/
def substitutionTable (s : ChPovRay) : List (String × String) :=
  [("picture_width", toString s.picture_width),
   ("picture_height", toString s.picture_height),
   ("antialias", toString s.antialias),
   ("antialias_depth", toString s.antialias_depth),
   ("antialias_treshold", toString s.antialias_treshold),
   ("camera_location", toString s.camera_location),
   ("camera_aim", toString s.camera_aim),
   ("camera_angle", toString s.camera_angle),
   ("camera_orthographic", toString s.camera_orthographic),
   ("light_location", toString s.def_light_location),
   ("light_color", toString s.def_light_color),
   ("light_cast_shadows", toString s.def_light_cast_shadows),
   ("background", toString s.background),
   ("ambient_light", toString s.ambient_light),
   ("wireframe_thickness", toString s.wireframe_thickness),
   ("custom_script", s.custom_script),
   ("data_filebase", s.out_data_filename)]

/-- Modelled from the spec (§4.3): render one template token. A marker with a
matching substitution is replaced by its value; a marker with no matching
substitution is left in the output as literal text (non-fatal leniency). -/
def substToken (tbl : List (String × String)) : TemplToken → String
  | .lit t => t
  | .marker m =>
    match tbl.lookup m with
    | some v => v
    | none => m

/-- The rendered chunks of a template, in order; the generated script is
their concatenation. -/
def generateChunks (tbl : List (String × String)) (tmpl : List TemplToken) : List String :=
  tmpl.map (substToken tbl)

/-- Modelled from the spec (§4.3, missing `ChPovRay::ExportScript` body): the
script text generated from a template under the configuration of `s`. -/
def generate (s : ChPovRay) (tmpl : List TemplToken) : String :=
  String.join (generateChunks (substitutionTable s) tmpl)

/-- Error taxonomy of the export pipeline (spec §7). -/
inductive PovError where
  | IOError
  | StateError
  | TemplateError
deriving DecidableEq, Repr

/-- The file system as the exporter observes it: the set of existing
directories, the files present (path and content), and whether the disk is
full (so that an opened file cannot be written completely). -/
structure FileSys where
  dirs : List String
  files : List (String × String)
  diskFull : Bool
deriving DecidableEq, Repr

/-- Outcome of an export call performed against a file system: the error
surfaced (if any), the exporter state after the call, and the file system
after the call. -/
structure ExportOutcome where
  err : Option PovError
  state : ChPovRay
  fs : FileSys
deriving DecidableEq, Repr

/-- Serialized content of a frame file. -/
def serializeFrame (ff : FrameFile) : String := reprStr ff

/-- Modelled from the spec (§4.4 error conditions, §5, §7; missing
`ChPovRay::ExportData` body): a frame export against a file system.
Fails with `StateError` when the output paths are not configured; fails with
`IOError` when the output directory does not exist (the component never
creates directories) — the frame file cannot even be created, so nothing is
written and no exporter state changes. Otherwise the render-list assets are
resolved into the session caches (single-asset-file mode); if the disk is
full the subsequent frame write fails with `IOError`, leaving a truncated
frame file on disk and *not* rolling back the cache registrations; on
success the complete frame file is written and the frame counter advances. -/
def exportDataFS (s : ChPovRay) (fs : FileSys) (contacts : List ℚ) : ExportOutcome :=
  if s.base_path = "" ∨ s.out_data_filename = "" then
    { err := some .StateError, state := s, fs := fs }
  else if outDir s ∉ fs.dirs then
    { err := some .IOError, state := s, fs := fs }
  else
    let s1 := if s.single_asset_file then exportAssetsStep s else s
    let ff := frameFileOf s contacts
    if fs.diskFull then
      { err := some .IOError, state := s1,
        fs := { fs with files := fs.files ++ [(ff.name, "")] } }
    else
      { err := none, state := { s1 with framenumber := s1.framenumber + 1 },
        fs := { fs with files := fs.files ++ [(ff.name, serializeFrame ff)] } }

/-- Modelled from the spec (the `ChPovRay(ChSystem*)` constructor is not in
the excerpt): the documented defaults — template `_template_POV.pov`, script
file `render_frames.pov`, picture file base `pic`, data file base `state`,
frame counter starting at 0. -/
def povInit : ChPovRay :=
  { m_items := [], m_pov_shapes := [], m_pov_materials := []
    assets_shapes_out := [], assets_mats_out := []
    base_path := "", template_filename := "_template_POV.pov"
    pic_filename := "pic", out_script_filename := "render_frames.pov"
    out_data_filename := "state", framenumber := 0
    camera_location := (0, 1, -3), camera_aim := (0, 0, 0), camera_angle := 30
    camera_orthographic := false
    def_light_location := (2, 3, -1), def_light_color := (1, 1, 1)
    def_light_cast_shadows := true
    COGs_show := false, COGs_size := 4/100
    frames_show := false, frames_size := 5/100
    links_show := false, links_size := 4/100
    contacts_show := false, contacts_maxsize := 1/2, contacts_scale := 1/100
    contacts_scale_mode := .VECTOR_SCALELENGTH, contacts_width := 1/1000
    contacts_colormap_startscale := 0, contacts_colormap_endscale := 10
    contacts_do_colormap := true
    wireframe_thickness := 1/1000
    background := (0, 0, 0), ambient_light := (2, 2, 2)
    antialias := false, antialias_depth := 2, antialias_treshold := 1/10
    picture_width := 600, picture_height := 600
    custom_script := "", custom_data := ""
    single_asset_file := true }

/-! Helper lemmas about the asset-resolution pass. -/

theorem resolveKeys_spec (ks : List Nat) : ∀ cache out : List Nat,
    ∃ d : List Nat,
      (resolveKeys cache out ks).1 = cache ++ d ∧
      (resolveKeys cache out ks).2 = out ++ d ∧
      d.Nodup ∧
      (∀ x ∈ d, x ∈ ks ∧ x ∉ cache) ∧
      (∀ x ∈ ks, x ∈ cache ++ d) := by
  induction ks with
  | nil =>
    intro cache out
    exact ⟨[], by simp [resolveKeys], by simp [resolveKeys], List.nodup_nil, by simp, by simp⟩
  | cons k ks ih =>
    intro cache out
    by_cases hk : k ∈ cache
    · obtain ⟨d, h1, h2, h3, h4, h5⟩ := ih cache out
      refine ⟨d, ?_, ?_, h3, ?_, ?_⟩
      · simpa [resolveKeys, resolveKey, hk] using h1
      · simpa [resolveKeys, resolveKey, hk] using h2
      · exact fun x hx => ⟨List.mem_cons_of_mem _ (h4 x hx).1, (h4 x hx).2⟩
      · intro x hx
        rcases List.mem_cons.mp hx with rfl | hx
        · exact List.mem_append_left _ hk
        · exact h5 x hx
    · obtain ⟨d, h1, h2, h3, h4, h5⟩ := ih (cache ++ [k]) (out ++ [k])
      have hrw : resolveKeys cache out (k :: ks) = resolveKeys (cache ++ [k]) (out ++ [k]) ks := by
        simp [resolveKeys, resolveKey, hk]
      refine ⟨k :: d, ?_, ?_, ?_, ?_, ?_⟩
      · rw [hrw, h1]; simp
      · rw [hrw, h2]; simp
      · refine List.nodup_cons.mpr ⟨?_, h3⟩
        intro hkd
        exact (h4 k hkd).2 (List.mem_append_right _ (List.mem_singleton.mpr rfl))
      · intro x hx
        rcases List.mem_cons.mp hx with rfl | hx
        · exact ⟨List.mem_cons_self _ _, hk⟩
        · refine ⟨List.mem_cons_of_mem _ (h4 x hx).1, fun hc => (h4 x hx).2 ?_⟩
          exact List.mem_append_left _ hc
      · intro x hx
        rcases List.mem_cons.mp hx with rfl | hx
        · exact List.mem_append_right _ (List.mem_cons_self _ _)
        · have := h5 x hx
          simpa [List.append_assoc] using this

theorem resolveKeys_of_subset {ks cache out : List Nat} (h : ∀ x ∈ ks, x ∈ cache) :
    resolveKeys cache out ks = (cache, out) := by
  induction ks with
  | nil => rfl
  | cons k ks ih =>
    have hk : k ∈ cache := h k (List.mem_cons_self _ _)
    simp only [resolveKeys, resolveKey, if_pos hk]
    exact ih fun x hx => h x (List.mem_cons_of_mem _ hx)

theorem resolveKeys_nodup {ks cache out : List Nat} (h : cache.Nodup) :
    (resolveKeys cache out ks).1.Nodup := by
  obtain ⟨d, h1, _, h3, h4, _⟩ := resolveKeys_spec ks cache out
  rw [h1]
  exact List.Nodup.append h (by exact h3) (fun x hx hxd => (h4 x hxd).2 hx)

theorem resolveKeys_mem {ks cache out : List Nat} {x : Nat} (h : x ∈ ks) :
    x ∈ (resolveKeys cache out ks).1 := by
  obtain ⟨d, h1, _, _, _, h5⟩ := resolveKeys_spec ks cache out
  rw [h1]
  exact h5 x h

theorem resolveKeys_mono {ks cache out : List Nat} {x : Nat} (h : x ∈ cache) :
    x ∈ (resolveKeys cache out ks).1 := by
  obtain ⟨d, h1, _, _, _, _⟩ := resolveKeys_spec ks cache out
  rw [h1]
  exact List.mem_append_left _ h

theorem resolveKeys_eq_parts {ks cache out : List Nat} (h : out = cache) :
    (resolveKeys cache out ks).2 = (resolveKeys cache out ks).1 := by
  obtain ⟨d, h1, h2, _, _, _⟩ := resolveKeys_spec ks cache out
  rw [h1, h2, h]

/-! Helper lemmas about the render list. -/

theorem Add_of_hasId {s : ChPovRay} {item : ChPhysicsItem}
    (h : hasId s.m_items item.id = true) : s.Add item = s := by
  unfold ChPovRay.Add
  cases item.visual with
  | none => rfl
  | some vm => simp [h]

theorem Add_hasId_mono {s : ChPovRay} {item : ChPhysicsItem} {i : Nat}
    (h : hasId s.m_items i = true) : hasId (s.Add item).m_items i = true := by
  unfold ChPovRay.Add
  cases item.visual with
  | none => exact h
  | some vm =>
    by_cases hp : hasId s.m_items item.id = true
    · rw [if_pos hp]; exact h
    · rw [if_neg hp]
      show (s.m_items ++ [item]).any (fun it => it.id == i) = true
      rw [List.any_append]
      unfold hasId at h
      rw [h, Bool.true_or]

theorem Add_hasId_self {s : ChPovRay} {item : ChPhysicsItem} {vm : ChVisualModel}
    (h : item.visual = some vm) : hasId (s.Add item).m_items item.id = true := by
  unfold ChPovRay.Add
  rw [h]
  by_cases hp : hasId s.m_items item.id = true
  · rw [if_pos hp]; exact hp
  · rw [if_neg hp]
    show (s.m_items ++ [item]).any (fun it => it.id == item.id) = true
    rw [List.any_append]
    have hone : [item].any (fun it => it.id == item.id) = true := by simp
    rw [hone, Bool.or_true]

theorem AddAll_hasId_mono {sys : List ChPhysicsItem} : ∀ {s : ChPovRay} {i : Nat},
    hasId s.m_items i = true → hasId (s.AddAll sys).m_items i = true := by
  induction sys with
  | nil => intro s i h; exact h
  | cons it sys ih =>
    intro s i h
    exact ih (Add_hasId_mono h)

theorem AddAll_hasId_of_mem {sys : List ChPhysicsItem} : ∀ {s : ChPovRay}
    {it : ChPhysicsItem} {vm : ChVisualModel}, it ∈ sys → it.visual = some vm →
    hasId (s.AddAll sys).m_items it.id = true := by
  induction sys with
  | nil => intro s it vm h; exact absurd h (List.not_mem_nil _)
  | cons hd sys ih =>
    intro s it vm hmem hvis
    rcases List.mem_cons.mp hmem with rfl | hmem
    · show hasId ((s.Add it).AddAll sys).m_items it.id = true
      exact AddAll_hasId_mono (Add_hasId_self hvis)
    · show hasId ((s.Add hd).AddAll sys).m_items it.id = true
      exact ih hmem hvis

theorem foldl_Add_eq_self {sys : List ChPhysicsItem} : ∀ {s : ChPovRay},
    (∀ it ∈ sys, it.visual = none ∨ hasId s.m_items it.id = true) →
    sys.foldl ChPovRay.Add s = s := by
  induction sys with
  | nil => intro s h; rfl
  | cons hd sys ih =>
    intro s h
    have hhd : s.Add hd = s := by
      rcases h hd (List.mem_cons_self _ _) with hv | hp
      · unfold ChPovRay.Add; rw [hv]
      · exact Add_of_hasId hp
    simp only [List.foldl_cons, hhd]
    exact ih fun it hit => h it (List.mem_cons_of_mem _ hit)

theorem Add_idsNodup {s : ChPovRay} {item : ChPhysicsItem}
    (h : (s.m_items.map ChPhysicsItem.id).Nodup) :
    ((s.Add item).m_items.map ChPhysicsItem.id).Nodup := by
  unfold ChPovRay.Add
  cases item.visual with
  | none => exact h
  | some vm =>
    by_cases hp : hasId s.m_items item.id = true
    · rw [if_pos hp]; exact h
    · rw [if_neg hp]
      show ((s.m_items ++ [item]).map ChPhysicsItem.id).Nodup
      simp only [List.map_append, List.map_cons, List.map_nil]
      rw [List.nodup_append]
      refine ⟨h, List.nodup_singleton _, ?_⟩
      intro a ha hb
      rcases List.mem_singleton.mp hb with rfl
      rcases List.mem_map.mp ha with ⟨it, hit, hid⟩
      have : hasId s.m_items item.id = true :=
        List.any_eq_true.mpr ⟨it, hit, by simp [hid]⟩
      exact hp this

theorem AddAll_idsNodup {sys : List ChPhysicsItem} : ∀ {s : ChPovRay},
    (s.m_items.map ChPhysicsItem.id).Nodup →
    ((s.AddAll sys).m_items.map ChPhysicsItem.id).Nodup := by
  induction sys with
  | nil => intro s h; exact h
  | cons hd sys ih =>
    intro s h
    exact ih (Add_idsNodup h)

/-! Helper lemmas about the frame-export step. -/

theorem ExportData_framestr (s : ChPovRay) (cs : List ℚ) :
    (s.ExportData cs).2.framestr = padZero4 s.framenumber := rfl

theorem ExportData_framenumber (s : ChPovRay) (cs : List ℚ) :
    (s.ExportData cs).1.framenumber = s.framenumber + 1 := by
  unfold ChPovRay.ExportData
  by_cases hb : s.single_asset_file = true
  · rw [if_pos hb]; rfl
  · rw [if_neg hb]

theorem ExportData_m_items (s : ChPovRay) (cs : List ℚ) :
    (s.ExportData cs).1.m_items = s.m_items := by
  unfold ChPovRay.ExportData
  by_cases hb : s.single_asset_file = true
  · rw [if_pos hb]; rfl
  · rw [if_neg hb]

theorem ExportData_single (s : ChPovRay) (cs : List ℚ) :
    (s.ExportData cs).1.single_asset_file = s.single_asset_file := by
  unfold ChPovRay.ExportData
  by_cases hb : s.single_asset_file = true
  · rw [if_pos hb]; rfl
  · rw [if_neg hb]

theorem ExportData_of_single {s : ChPovRay} (cs : List ℚ) (hb : s.single_asset_file = true) :
    (s.ExportData cs).1 =
      { exportAssetsStep s with framenumber := s.framenumber + 1 } := by
  unfold ChPovRay.ExportData
  rw [if_pos hb]
  rfl

theorem ExportData_shapes_mono {s : ChPovRay} (cs : List ℚ) {k : Nat}
    (h : k ∈ s.m_pov_shapes) : k ∈ (s.ExportData cs).1.m_pov_shapes := by
  unfold ChPovRay.ExportData
  by_cases hb : s.single_asset_file = true
  · rw [if_pos hb]
    exact resolveKeys_mono h
  · rw [if_neg hb]; exact h

theorem ExportData_mats_mono {s : ChPovRay} (cs : List ℚ) {k : Nat}
    (h : k ∈ s.m_pov_materials) : k ∈ (s.ExportData cs).1.m_pov_materials := by
  unfold ChPovRay.ExportData
  by_cases hb : s.single_asset_file = true
  · rw [if_pos hb]
    exact resolveKeys_mono h
  · rw [if_neg hb]; exact h

theorem ExportData_shapes_ref {s : ChPovRay} (cs : List ℚ) (hb : s.single_asset_file = true)
    {k : Nat} (h : k ∈ renderShapeKeys s) : k ∈ (s.ExportData cs).1.m_pov_shapes := by
  rw [ExportData_of_single cs hb]
  exact resolveKeys_mem h

theorem ExportData_mats_ref {s : ChPovRay} (cs : List ℚ) (hb : s.single_asset_file = true)
    {k : Nat} (h : k ∈ renderMatKeys s) : k ∈ (s.ExportData cs).1.m_pov_materials := by
  rw [ExportData_of_single cs hb]
  exact resolveKeys_mem h

/-- Session invariant of single-asset-file mode: the combined asset output
mirrors the dedup caches, and the caches are duplicate-free. -/
def goodState (s : ChPovRay) : Prop :=
  s.assets_shapes_out = s.m_pov_shapes ∧ s.assets_mats_out = s.m_pov_materials ∧
  s.m_pov_shapes.Nodup ∧ s.m_pov_materials.Nodup

theorem exportAssetsStep_good {s : ChPovRay} (h : goodState s) : goodState (exportAssetsStep s) := by
  obtain ⟨h1, h2, h3, h4⟩ := h
  refine ⟨?_, ?_, ?_, ?_⟩
  · exact resolveKeys_eq_parts h1
  · exact resolveKeys_eq_parts h2
  · exact resolveKeys_nodup h3
  · exact resolveKeys_nodup h4

theorem ExportData_good {s : ChPovRay} (cs : List ℚ) (h : goodState s) :
    goodState (s.ExportData cs).1 := by
  unfold ChPovRay.ExportData
  by_cases hb : s.single_asset_file = true
  · rw [if_pos hb]
    exact exportAssetsStep_good h
  · rw [if_neg hb]; exact h

theorem exportN_fst_succ (cs : Nat → List ℚ) (n : Nat) (s : ChPovRay) :
    (exportN cs (n + 1) s).1 = (exportN (fun i => cs (i + 1)) n (s.ExportData (cs 0)).1).1 := rfl

theorem exportN_m_items (n : Nat) : ∀ (cs : Nat → List ℚ) (s : ChPovRay),
    (exportN cs n s).1.m_items = s.m_items := by
  induction n with
  | zero => intro cs s; rfl
  | succ n ih =>
    intro cs s
    rw [exportN_fst_succ, ih, ExportData_m_items]

theorem exportN_single (n : Nat) : ∀ (cs : Nat → List ℚ) (s : ChPovRay),
    (exportN cs n s).1.single_asset_file = s.single_asset_file := by
  induction n with
  | zero => intro cs s; rfl
  | succ n ih =>
    intro cs s
    rw [exportN_fst_succ, ih, ExportData_single]

theorem exportN_good (n : Nat) : ∀ (cs : Nat → List ℚ) (s : ChPovRay), goodState s →
    goodState (exportN cs n s).1 := by
  induction n with
  | zero => intro cs s h; exact h
  | succ n ih =>
    intro cs s h
    rw [exportN_fst_succ]
    exact ih _ _ (ExportData_good _ h)

theorem exportN_shapes_mono (n : Nat) : ∀ (cs : Nat → List ℚ) (s : ChPovRay) {k : Nat},
    k ∈ s.m_pov_shapes → k ∈ (exportN cs n s).1.m_pov_shapes := by
  induction n with
  | zero => intro cs s k h; exact h
  | succ n ih =>
    intro cs s k h
    rw [exportN_fst_succ]
    exact ih _ _ (ExportData_shapes_mono _ h)

theorem exportN_mats_mono (n : Nat) : ∀ (cs : Nat → List ℚ) (s : ChPovRay) {k : Nat},
    k ∈ s.m_pov_materials → k ∈ (exportN cs n s).1.m_pov_materials := by
  induction n with
  | zero => intro cs s k h; exact h
  | succ n ih =>
    intro cs s k h
    rw [exportN_fst_succ]
    exact ih _ _ (ExportData_mats_mono _ h)

/-! Example fixtures used by the concrete witnesses. -/

/-- An item with a visual model: one shape (identity key 5) with one material
(identity key 7). -/
def exItemA : ChPhysicsItem :=
  { id := 1
    visual := some { shapes := [{ shape := { key := 5, materials := [7], wireframe := false }
                                  frame := (0, 0, 0) }] }
    pos := (0, 0, 0) }

/-- A second item referencing the same shape identity 5 and materials 7, 8. -/
def exItemB : ChPhysicsItem :=
  { id := 2
    visual := some { shapes := [{ shape := { key := 5, materials := [7, 8], wireframe := false }
                                  frame := (1, 0, 0) }] }
    pos := (1, 0, 0) }

/-- An item with no visual model. -/
def exItemNoVis : ChPhysicsItem := { id := 3, visual := none, pos := (0, 0, 0) }

/-- A configured exporter whose render list holds `exItemA` and `exItemB`. -/
def exState : ChPovRay := (povInit.AddAll [exItemA, exItemB]).SetBasePath "proj"

/-- C1: in single-asset-file mode, across any sequence of `n ≥ 1` frame
exports (`ExportData` calls) within one export session — a session starts
with empty dedup caches and empty combined asset output — each distinct shape
identity and each distinct material identity referenced by the items in the
render list is serialized into the combined asset output exactly once, no
matter how many frames or render items reference it. -/
theorem povray_dedup_invariant (s : ChPovRay) (cs : Nat → List ℚ) (n : Nat)
    (hsingle : s.single_asset_file = true)
    (hc1 : s.m_pov_shapes = []) (hc2 : s.m_pov_materials = [])
    (ho1 : s.assets_shapes_out = []) (ho2 : s.assets_mats_out = [])
    (hn : 1 ≤ n) :
    (∀ k ∈ renderShapeKeys s, ((exportN cs n s).1.assets_shapes_out).count k = 1) ∧
    (∀ k ∈ renderMatKeys s, ((exportN cs n s).1.assets_mats_out).count k = 1) := by
  have hgood : goodState s :=
    ⟨by rw [ho1, hc1], by rw [ho2, hc2],
     by rw [hc1]; exact List.nodup_nil, by rw [hc2]; exact List.nodup_nil⟩
  obtain ⟨g1, g2, g3, g4⟩ := exportN_good n cs s hgood
  obtain ⟨m, rfl⟩ : ∃ m, n = m + 1 := ⟨n - 1, (Nat.succ_pred_eq_of_pos hn).symm⟩
  constructor
  · intro k hk
    have hk1 : k ∈ (s.ExportData (cs 0)).1.m_pov_shapes := ExportData_shapes_ref _ hsingle hk
    have hk2 : k ∈ (exportN cs (m + 1) s).1.m_pov_shapes := by
      rw [exportN_fst_succ]
      exact exportN_shapes_mono m _ _ hk1
    rw [g1]
    exact List.count_eq_one_of_mem g3 hk2
  · intro k hk
    have hk1 : k ∈ (s.ExportData (cs 0)).1.m_pov_materials := ExportData_mats_ref _ hsingle hk
    have hk2 : k ∈ (exportN cs (m + 1) s).1.m_pov_materials := by
      rw [exportN_fst_succ]
      exact exportN_mats_mono m _ _ hk1
    rw [g2]
    exact List.count_eq_one_of_mem g4 hk2

/-- Witness for C1: three exports of a render list in which two items share
shape identity 5 and material identity 7; every referenced identity is
serialized exactly once. -/
theorem povray_dedup_invariant_witness :
    (∀ k ∈ renderShapeKeys exState,
      ((exportN (fun _ => []) 3 exState).1.assets_shapes_out).count k = 1) ∧
    (∀ k ∈ renderMatKeys exState,
      ((exportN (fun _ => []) 3 exState).1.assets_mats_out).count k = 1) :=
  povray_dedup_invariant exState (fun _ => []) 3 (by decide) (by decide) (by decide)
    (by decide) (by decide) (by decide)

/-- C2: with the internal frame counter starting at 0, three successive
default frame exports write files with zero-padded frame numbers `0000`,
`0001`, `0002` in that order; overriding the frame number to 7 via
`SetFramenumber` makes the next export write frame `0007` and leaves the
counter at 8 (consistent with having exported frame 7), so the following
default export writes `0008` — a frame number that neither skips past 7+1
nor collides with any frame written before. -/
theorem povray_frame_numbering (s : ChPovRay) (c1 c2 c3 c4 c5 : List ℚ)
    (h0 : s.framenumber = 0) :
    ((s.ExportData c1).2.framestr = "0000") ∧
    (((s.ExportData c1).1.ExportData c2).2.framestr = "0001") ∧
    ((((s.ExportData c1).1.ExportData c2).1.ExportData c3).2.framestr = "0002") ∧
    ((((((s.ExportData c1).1.ExportData c2).1.ExportData c3).1.SetFramenumber
        7).ExportData c4).2.framestr = "0007") ∧
    ((((((s.ExportData c1).1.ExportData c2).1.ExportData c3).1.SetFramenumber
        7).ExportData c4).1.framenumber = 8) ∧
    (((((((s.ExportData c1).1.ExportData c2).1.ExportData c3).1.SetFramenumber
        7).ExportData c4).1.ExportData c5).2.framestr = "0008") ∧
    ("0008" ∉ (["0000", "0001", "0002", "0007"] : List String)) := by
  simp only [ExportData_framestr, ExportData_framenumber, ChPovRay.SetFramenumber, h0]
  decide

/-- Witness for C2: the chain of exports applied to the freshly constructed
exporter, whose counter starts at 0. -/
theorem povray_frame_numbering_witness :
    ((povInit.ExportData []).2.framestr = "0000") ∧
    (((povInit.ExportData []).1.ExportData []).2.framestr = "0001") ∧
    ((((povInit.ExportData []).1.ExportData []).1.ExportData []).2.framestr = "0002") ∧
    ((((((povInit.ExportData []).1.ExportData []).1.ExportData []).1.SetFramenumber
        7).ExportData []).2.framestr = "0007") ∧
    ((((((povInit.ExportData []).1.ExportData []).1.ExportData []).1.SetFramenumber
        7).ExportData []).1.framenumber = 8) ∧
    (((((((povInit.ExportData []).1.ExportData []).1.ExportData []).1.SetFramenumber
        7).ExportData []).1.ExportData []).2.framestr = "0008") ∧
    ("0008" ∉ (["0000", "0001", "0002", "0007"] : List String)) :=
  povray_frame_numbering povInit [] [] [] [] [] (by decide)

/-- C3: `Add(item)` inserts the item into the render list exactly when the
item exposes a visual model: after the call the list holds an item with that
identity iff the item has a visual model or one with that identity was
already present; calling `Add` on an item without a visual model returns the
exporter completely unchanged (silent no-op, no error channel). -/
theorem povray_add_requires_visual (s : ChPovRay) (item : ChPhysicsItem) :
    (hasId (s.Add item).m_items item.id =
      (item.visual.isSome || hasId s.m_items item.id)) ∧
    (item.visual = none → s.Add item = s) := by
  constructor
  · cases hv : item.visual with
    | none =>
      have he : s.Add item = s := by unfold ChPovRay.Add; rw [hv]
      rw [he]
      simp
    | some vm =>
      rw [Option.isSome_some, Bool.true_or]
      exact Add_hasId_self hv
  · intro hv
    unfold ChPovRay.Add
    rw [hv]

/-- Witness for C3: adding an item with a visual model registers its
identity; adding an item without one leaves the exporter unchanged. -/
theorem povray_add_requires_visual_witness :
    (hasId (povInit.Add exItemA).m_items exItemA.id =
      (exItemA.visual.isSome || hasId povInit.m_items exItemA.id)) ∧
    (povInit.Add exItemNoVis = povInit) :=
  ⟨(povray_add_requires_visual povInit exItemA).1,
   (povray_add_requires_visual povInit exItemNoVis).2 (by decide)⟩

/-- C4: the render list behaves as a set keyed by item identity: a second
`Add` of the same item leaves the list unchanged in length; a `Remove` of an
item whose identity is not in the list leaves the exporter unchanged; a
second `AddAll` immediately after a first one is the identity, and `AddAll`
preserves freedom from duplicate identities. -/
theorem povray_renderlist_set_semantics (s : ChPovRay) (item : ChPhysicsItem)
    (sys : List ChPhysicsItem) :
    (((s.Add item).Add item).m_items.length = (s.Add item).m_items.length) ∧
    (hasId s.m_items item.id = false → s.Remove item = s) ∧
    ((s.AddAll sys).AddAll sys = s.AddAll sys) ∧
    ((s.m_items.map ChPhysicsItem.id).Nodup →
      ((s.AddAll sys).m_items.map ChPhysicsItem.id).Nodup) := by
  refine ⟨?_, ?_, ?_, ?_⟩
  · have hidem : (s.Add item).Add item = s.Add item := by
      cases hv : item.visual with
      | none =>
        have he : s.Add item = s := by unfold ChPovRay.Add; rw [hv]
        rw [he]; exact he
      | some vm => exact Add_of_hasId (Add_hasId_self hv)
    rw [hidem]
  · intro h
    have hall := List.any_eq_false.mp h
    have hfix : s.m_items.filter (fun it => !(it.id == item.id)) = s.m_items := by
      apply List.filter_eq_self.mpr
      intro a ha
      have hne := hall a ha
      simp only [beq_iff_eq] at hne
      simp [hne]
    unfold ChPovRay.Remove
    rw [hfix]
  · apply foldl_Add_eq_self
    intro it hit
    cases hv : it.visual with
    | none => exact Or.inl rfl
    | some vm => exact Or.inr (AddAll_hasId_of_mem hit hv)
  · exact AddAll_idsNodup

/-- Witness for C4: with the initial (empty) render list and a system of two
eligible items plus one ineligible one, the double `Add`, absent `Remove`
and double `AddAll` facts hold concretely. -/
theorem povray_renderlist_set_semantics_witness :
    (((povInit.Add exItemA).Add exItemA).m_items.length =
      (povInit.Add exItemA).m_items.length) ∧
    (povInit.Remove exItemA = povInit) ∧
    ((povInit.AddAll [exItemA, exItemB, exItemNoVis]).AddAll
      [exItemA, exItemB, exItemNoVis] = povInit.AddAll [exItemA, exItemB, exItemNoVis]) ∧
    (((povInit.AddAll [exItemA, exItemB, exItemNoVis]).m_items.map
      ChPhysicsItem.id).Nodup) :=
  ⟨(povray_renderlist_set_semantics povInit exItemA []).1,
   (povray_renderlist_set_semantics povInit exItemA []).2.1 (by decide),
   (povray_renderlist_set_semantics povInit exItemA [exItemA, exItemB, exItemNoVis]).2.2.1,
   (povray_renderlist_set_semantics povInit exItemA [exItemA, exItemB, exItemNoVis]).2.2.2
     (by decide)⟩

/-- C5: script generation from a template containing only the picture-width
marker, under a configuration with picture size 800x600, produces exactly
`800`; and for every configuration and template, a marker with no matching
substitution contributes its own name literally to the output chunks
(non-fatal leniency). -/
theorem povray_template_substitution (s : ChPovRay) (tmpl : List TemplToken) (m : String) :
    (generate (s.SetPictureSize 800 600) [TemplToken.marker "picture_width"] = "800") ∧
    ((substitutionTable s).lookup m = none → TemplToken.marker m ∈ tmpl →
      m ∈ generateChunks (substitutionTable s) tmpl) := by
  constructor
  · unfold generate generateChunks substToken substitutionTable ChPovRay.SetPictureSize
    norm_num [List.lookup]
    rfl
  · intro hm hmem
    have hchunk : substToken (substitutionTable s) (TemplToken.marker m) = m := by
      show (match (substitutionTable s).lookup m with
            | some v => v
            | none => m) = m
      rw [hm]
    rw [← hchunk]
    exact List.mem_map_of_mem _ hmem

/-- Witness for C5: a template holding the picture-width marker, a literal
and an unknown marker; the unknown marker survives literally. -/
theorem povray_template_substitution_witness :
    (generate (povInit.SetPictureSize 800 600) [TemplToken.marker "picture_width"] = "800") ∧
    ("mystery_marker" ∈ generateChunks (substitutionTable povInit)
      [TemplToken.lit "w=", TemplToken.marker "picture_width",
       TemplToken.marker "mystery_marker"]) :=
  ⟨(povray_template_substitution povInit [] "").1,
   (povray_template_substitution povInit
      [TemplToken.lit "w=", TemplToken.marker "picture_width",
       TemplToken.marker "mystery_marker"] "mystery_marker").2 (by decide) (by decide)⟩

/-- C6: a frame export attempted while the configured output directory does
not exist fails with an `IOError`, writes nothing to the file system (so the
frame file for that frame number is absent rather than partially written),
and leaves the exporter state untouched. -/
theorem povray_export_missing_dir (s : ChPovRay) (fs : FileSys) (cs : List ℚ)
    (hb : ¬ s.base_path = "") (hd : ¬ s.out_data_filename = "")
    (hdir : outDir s ∉ fs.dirs) :
    (exportDataFS s fs cs).err = some PovError.IOError ∧
    (exportDataFS s fs cs).fs = fs ∧
    (exportDataFS s fs cs).state = s := by
  unfold exportDataFS
  rw [if_neg (not_or.mpr ⟨hb, hd⟩), if_pos hdir]
  exact ⟨rfl, rfl, rfl⟩

/-- Witness for C6: a configured exporter aimed at a file system that lacks
the `proj/output` directory. -/
theorem povray_export_missing_dir_witness :
    (exportDataFS exState { dirs := [], files := [], diskFull := false } []).err =
      some PovError.IOError ∧
    (exportDataFS exState { dirs := [], files := [], diskFull := false } []).fs =
      { dirs := [], files := [], diskFull := false } ∧
    (exportDataFS exState { dirs := [], files := [], diskFull := false } []).state = exState :=
  povray_export_missing_dir exState { dirs := [], files := [], diskFull := false } []
    (by decide) (by decide) (by decide)

/-- C7: when a frame export fails with an `IOError` after the shape and
material identities were resolved into the asset cache (a full disk striking
the frame-file write), the cache registrations are not rolled back: every
referenced identity and every previously registered identity remains
registered, previously written files and the already accumulated asset
output are untouched (the new output only extends the old), and on the next
export attempt nothing is re-serialized into the asset output. -/
theorem povray_export_failure_cache_kept (s : ChPovRay) (fs : FileSys) (cs cs2 : List ℚ)
    (hb : ¬ s.base_path = "") (hd : ¬ s.out_data_filename = "")
    (hdir : outDir s ∈ fs.dirs) (hfull : fs.diskFull = true)
    (hsingle : s.single_asset_file = true) :
    (exportDataFS s fs cs).err = some PovError.IOError ∧
    (∀ k ∈ renderShapeKeys s, k ∈ (exportDataFS s fs cs).state.m_pov_shapes) ∧
    (∀ k ∈ renderMatKeys s, k ∈ (exportDataFS s fs cs).state.m_pov_materials) ∧
    (∀ k ∈ s.m_pov_shapes, k ∈ (exportDataFS s fs cs).state.m_pov_shapes) ∧
    (∀ k ∈ s.m_pov_materials, k ∈ (exportDataFS s fs cs).state.m_pov_materials) ∧
    (∀ e ∈ fs.files, e ∈ (exportDataFS s fs cs).fs.files) ∧
    (∃ d, (exportDataFS s fs cs).state.assets_shapes_out = s.assets_shapes_out ++ d) ∧
    (((exportDataFS s fs cs).state.ExportData cs2).1.assets_shapes_out =
      (exportDataFS s fs cs).state.assets_shapes_out) ∧
    (((exportDataFS s fs cs).state.ExportData cs2).1.assets_mats_out =
      (exportDataFS s fs cs).state.assets_mats_out) := by
  have hred : exportDataFS s fs cs =
      { err := some PovError.IOError, state := exportAssetsStep s,
        fs := { fs with files := fs.files ++ [((frameFileOf s cs).name, "")] } } := by
    unfold exportDataFS
    rw [if_neg (not_or.mpr ⟨hb, hd⟩), if_neg (not_not_intro hdir)]
    simp only [hsingle, if_true, hfull]
  rw [hred]
  refine ⟨rfl, ?_, ?_, ?_, ?_, ?_, ?_, ?_, ?_⟩
  · intro k hk
    exact resolveKeys_mem hk
  · intro k hk
    exact resolveKeys_mem hk
  · intro k hk
    exact resolveKeys_mono hk
  · intro k hk
    exact resolveKeys_mono hk
  · intro e he
    exact List.mem_append_left _ he
  · obtain ⟨d, _, h2, _, _, _⟩ :=
      resolveKeys_spec (renderShapeKeys s) s.m_pov_shapes s.assets_shapes_out
    exact ⟨d, h2⟩
  · have hs2 : (exportAssetsStep s).single_asset_file = true := hsingle
    rw [ExportData_of_single cs2 hs2]
    show (exportAssetsStep (exportAssetsStep s)).assets_shapes_out = _
    have hsub : ∀ x ∈ renderShapeKeys (exportAssetsStep s),
        x ∈ (exportAssetsStep s).m_pov_shapes := fun x hx => resolveKeys_mem hx
    show (resolveKeys (exportAssetsStep s).m_pov_shapes (exportAssetsStep s).assets_shapes_out
      (renderShapeKeys (exportAssetsStep s))).2 = _
    rw [resolveKeys_of_subset hsub]
  · have hs2 : (exportAssetsStep s).single_asset_file = true := hsingle
    rw [ExportData_of_single cs2 hs2]
    show (exportAssetsStep (exportAssetsStep s)).assets_mats_out = _
    have hsub : ∀ x ∈ renderMatKeys (exportAssetsStep s),
        x ∈ (exportAssetsStep s).m_pov_materials := fun x hx => resolveKeys_mem hx
    show (resolveKeys (exportAssetsStep s).m_pov_materials (exportAssetsStep s).assets_mats_out
      (renderMatKeys (exportAssetsStep s))).2 = _
    rw [resolveKeys_of_subset hsub]

/-- Witness for C7: full disk under a render list referencing shape 5 and
materials 7, 8. -/
theorem povray_export_failure_cache_kept_witness :
    (exportDataFS exState { dirs := ["proj/output"], files := [], diskFull := true } []).err =
      some PovError.IOError ∧
    (∀ k ∈ renderShapeKeys exState, k ∈ (exportDataFS exState
      { dirs := ["proj/output"], files := [], diskFull := true } []).state.m_pov_shapes) ∧
    (∀ k ∈ renderMatKeys exState, k ∈ (exportDataFS exState
      { dirs := ["proj/output"], files := [], diskFull := true } []).state.m_pov_materials) ∧
    (∀ k ∈ exState.m_pov_shapes, k ∈ (exportDataFS exState
      { dirs := ["proj/output"], files := [], diskFull := true } []).state.m_pov_shapes) ∧
    (∀ k ∈ exState.m_pov_materials, k ∈ (exportDataFS exState
      { dirs := ["proj/output"], files := [], diskFull := true } []).state.m_pov_materials) ∧
    (∀ e ∈ ({ dirs := ["proj/output"], files := [], diskFull := true } : FileSys).files,
      e ∈ (exportDataFS exState
        { dirs := ["proj/output"], files := [], diskFull := true } []).fs.files) ∧
    (∃ d, (exportDataFS exState
      { dirs := ["proj/output"], files := [], diskFull := true } []).state.assets_shapes_out =
        exState.assets_shapes_out ++ d) ∧
    (((exportDataFS exState { dirs := ["proj/output"], files := [], diskFull := true }
        []).state.ExportData []).1.assets_shapes_out =
      (exportDataFS exState
        { dirs := ["proj/output"], files := [], diskFull := true } []).state.assets_shapes_out) ∧
    (((exportDataFS exState { dirs := ["proj/output"], files := [], diskFull := true }
        []).state.ExportData []).1.assets_mats_out =
      (exportDataFS exState
        { dirs := ["proj/output"], files := [], diskFull := true } []).state.assets_mats_out) :=
  povray_export_failure_cache_kept exState
    { dirs := ["proj/output"], files := [], diskFull := true } [] []
    (by decide) (by decide) (by decide) (by decide) (by decide)

/-! Helper lemmas about the colormap. -/

theorem contactColorValue_mono {lo hi : ℚ} (hlt : lo < hi) {a b : ℚ} (h : a ≤ b) :
    contactColorValue lo hi a ≤ contactColorValue lo hi b := by
  unfold contactColorValue clampQ
  have hnum : max lo (min a hi) - lo ≤ max lo (min b hi) - lo :=
    sub_le_sub_right (max_le_max le_rfl (min_le_min h le_rfl)) lo
  exact div_le_div_of_nonneg_right hnum (sub_pos.mpr hlt).le

theorem contactColorValue_bot {lo hi a : ℚ} (hle : lo ≤ hi) (h : a ≤ lo) :
    contactColorValue lo hi a = 0 := by
  unfold contactColorValue clampQ
  rw [min_eq_left (le_trans h hle), max_eq_left h, sub_self, zero_div]

theorem contactColorValue_top {lo hi a : ℚ} (hlt : lo < hi) (h : hi ≤ a) :
    contactColorValue lo hi a = 1 := by
  unfold contactColorValue clampQ
  rw [min_eq_right h, max_eq_right (le_of_lt hlt), div_self (ne_of_gt (sub_pos.mpr hlt))]

/-- The contact configuration of C9: scaled-radius spheres with colormap
bounds `[0, 100]`. -/
def exColormapCfg : ChPovRay :=
  povInit.SetShowContacts true ContactSymbol.SPHERE_SCALERADIUS 1 (1/10) (1/2) true 0 100

/-- C9: with contact display enabled in scaled-radius-sphere mode and the
colormap enabled with bounds `[0, 100]`, every contact entry emitted by a
frame export carries a color value that is a monotone function of the
contact-force magnitude clamped to that range: a larger magnitude never gets
a smaller color value, magnitudes at or below 0 get the start color (0), and
magnitudes at or above 100 get the end color (1). -/
theorem povray_contact_colormap_monotone (s : ChPovRay) (scale width max_size : ℚ)
    (cs : List ℚ) (e1 e2 : ContactEntry)
    (h1 : e1 ∈ ((s.SetShowContacts true ContactSymbol.SPHERE_SCALERADIUS scale width
      max_size true 0 100).ExportData cs).2.contact_entries)
    (h2 : e2 ∈ ((s.SetShowContacts true ContactSymbol.SPHERE_SCALERADIUS scale width
      max_size true 0 100).ExportData cs).2.contact_entries) :
    (e1.fmag ≤ e2.fmag → e1.colorval ≤ e2.colorval) ∧
    (e1.fmag ≤ 0 → e1.colorval = 0) ∧
    (100 ≤ e1.fmag → e1.colorval = 1) := by
  obtain ⟨f1, hf1, rfl⟩ := List.mem_map.mp h1
  obtain ⟨f2, hf2, rfl⟩ := List.mem_map.mp h2
  refine ⟨?_, ?_, ?_⟩
  · intro hle
    show contactColorValue 0 100 f1 ≤ contactColorValue 0 100 f2
    exact contactColorValue_mono (by norm_num) hle
  · intro hle
    show contactColorValue 0 100 f1 = 0
    exact contactColorValue_bot (by norm_num) hle
  · intro hge
    show contactColorValue 0 100 f1 = 1
    exact contactColorValue_top (by norm_num) hge

/-- Witness for C9: two contacts of magnitude 3 and 150 under colormap
bounds `[0, 100]`. -/
theorem povray_contact_colormap_monotone_witness :
    ((mkContactEntry exColormapCfg 3).fmag ≤ (mkContactEntry exColormapCfg 150).fmag →
      (mkContactEntry exColormapCfg 3).colorval ≤ (mkContactEntry exColormapCfg 150).colorval) ∧
    ((mkContactEntry exColormapCfg 3).fmag ≤ 0 →
      (mkContactEntry exColormapCfg 3).colorval = 0) ∧
    (100 ≤ (mkContactEntry exColormapCfg 3).fmag →
      (mkContactEntry exColormapCfg 3).colorval = 1) :=
  povray_contact_colormap_monotone povInit 1 (1/10) (1/2) [3, 150]
    (mkContactEntry exColormapCfg 3) (mkContactEntry exColormapCfg 150)
    (List.mem_cons_self _ _) (List.mem_cons_of_mem _ (List.mem_cons_self _ _))

/-- The contact configuration of C10: vector symbols in scaled-radius mode
with `max_size = 1/2`. -/
def exVectorCfg : ChPovRay :=
  povInit.SetShowContacts true ContactSymbol.VECTOR_SCALERADIUS 1 (1/10) (1/2) false 0 100

/-- C10: with contact display enabled in `VECTOR_SCALERADIUS` mode, every
contact vector symbol emitted by a frame export has length equal to the
configured `max_size`, regardless of the contact-force magnitude (only the
radius scales with the force). -/
theorem povray_contact_scaleradius_length (s : ChPovRay) (scale width max_size : ℚ)
    (do_cm : Bool) (cstart cend : ℚ) (cs : List ℚ) (e : ContactEntry)
    (he : e ∈ ((s.SetShowContacts true ContactSymbol.VECTOR_SCALERADIUS scale width
      max_size do_cm cstart cend).ExportData cs).2.contact_entries) :
    e.length = max_size := by
  obtain ⟨f, hf, rfl⟩ := List.mem_map.mp he
  rfl

/-- Witness for C10: a contact of magnitude 3 in `VECTOR_SCALERADIUS` mode
with `max_size = 1/2` gets a vector of length exactly `1/2`. -/
theorem povray_contact_scaleradius_length_witness :
    (mkContactEntry exVectorCfg 3).length = 1/2 :=
  povray_contact_scaleradius_length povInit 1 (1/10) (1/2) false 0 100 [3]
    (mkContactEntry exVectorCfg 3) (List.mem_cons_self _ _)

/-- C8 counterexample: the frame-counter increment is *not* the only
persistent exporter-state change of a successful export. On a session whose
render list references a not-yet-registered shape identity, the export also
mutates the asset dedup cache, so the resulting state differs from the input
state with only the counter bumped. -/
theorem povray_export_only_counter_cex :
    ¬ ((exState.ExportData []).1 =
        { exState with framenumber := exState.framenumber + 1 }) := by
  intro h
  have h2 := congrArg ChPovRay.m_pov_shapes h
  exact absurd h2 (by decide)

/-- C8 (amended): for every successful frame export, besides the written
frame file the only persistent state changes are the frame-counter increment
and the asset-cache mutations (dedup registrations and combined asset
output); every other piece of session state — render list, paths, filename
bases, visualization toggles and sizes, contact/colormap settings, camera
and light settings, background/ambient colors, antialiasing, picture size,
custom command blocks, asset-file policy — is unchanged by the call. -/
theorem povray_export_state_change (s : ChPovRay) (cs : List ℚ) :
    (s.ExportData cs).1.framenumber = s.framenumber + 1 ∧
    (s.ExportData cs).1.m_items = s.m_items ∧
    (s.ExportData cs).1.base_path = s.base_path ∧
    (s.ExportData cs).1.template_filename = s.template_filename ∧
    (s.ExportData cs).1.pic_filename = s.pic_filename ∧
    (s.ExportData cs).1.out_script_filename = s.out_script_filename ∧
    (s.ExportData cs).1.out_data_filename = s.out_data_filename ∧
    (s.ExportData cs).1.camera_location = s.camera_location ∧
    (s.ExportData cs).1.camera_aim = s.camera_aim ∧
    (s.ExportData cs).1.camera_angle = s.camera_angle ∧
    (s.ExportData cs).1.camera_orthographic = s.camera_orthographic ∧
    (s.ExportData cs).1.def_light_location = s.def_light_location ∧
    (s.ExportData cs).1.def_light_color = s.def_light_color ∧
    (s.ExportData cs).1.def_light_cast_shadows = s.def_light_cast_shadows ∧
    (s.ExportData cs).1.COGs_show = s.COGs_show ∧
    (s.ExportData cs).1.COGs_size = s.COGs_size ∧
    (s.ExportData cs).1.frames_show = s.frames_show ∧
    (s.ExportData cs).1.frames_size = s.frames_size ∧
    (s.ExportData cs).1.links_show = s.links_show ∧
    (s.ExportData cs).1.links_size = s.links_size ∧
    (s.ExportData cs).1.contacts_show = s.contacts_show ∧
    (s.ExportData cs).1.contacts_maxsize = s.contacts_maxsize ∧
    (s.ExportData cs).1.contacts_scale = s.contacts_scale ∧
    (s.ExportData cs).1.contacts_scale_mode = s.contacts_scale_mode ∧
    (s.ExportData cs).1.contacts_width = s.contacts_width ∧
    (s.ExportData cs).1.contacts_colormap_startscale = s.contacts_colormap_startscale ∧
    (s.ExportData cs).1.contacts_colormap_endscale = s.contacts_colormap_endscale ∧
    (s.ExportData cs).1.contacts_do_colormap = s.contacts_do_colormap ∧
    (s.ExportData cs).1.wireframe_thickness = s.wireframe_thickness ∧
    (s.ExportData cs).1.background = s.background ∧
    (s.ExportData cs).1.ambient_light = s.ambient_light ∧
    (s.ExportData cs).1.antialias = s.antialias ∧
    (s.ExportData cs).1.antialias_depth = s.antialias_depth ∧
    (s.ExportData cs).1.antialias_treshold = s.antialias_treshold ∧
    (s.ExportData cs).1.picture_width = s.picture_width ∧
    (s.ExportData cs).1.picture_height = s.picture_height ∧
    (s.ExportData cs).1.custom_script = s.custom_script ∧
    (s.ExportData cs).1.custom_data = s.custom_data ∧
    (s.ExportData cs).1.single_asset_file = s.single_asset_file := by
  cases hb : s.single_asset_file <;>
    simp [ChPovRay.ExportData, exportAssetsStep, hb]

end PovExport
